import Mathlib

/-!
# Verification of the firebase-tools runtime-delegate layer

Shallow embedding of `src/deploy/functions/runtimes/node/index.ts`,
`src/deploy/functions/runtimes/dart/index.ts` and
`src/deploy/functions/ensure.ts`.  Asynchronous, effectful methods are
embedded as pure functions from an explicit "world" (the outcomes of the
external effects: filesystem reads, subprocess exits, network probes) to a
trace of observable events plus a result; `Except` models promise
rejection / thrown errors.
-/

namespace FirebaseTools

/-- A discovered build description (`build.Build`).  The delegates treat it
as opaque: they only pass it through, so it is modelled as an opaque record
of endpoint names. -/
structure Build where
  endpoints : List String
deriving DecidableEq, Repr

/-- The tool's `FirebaseError`, modelled by its message. -/
structure FirebaseError where
  message : String
deriving DecidableEq, Repr

/-! ## Model of the npm `semver` library (external dependency)

`node/index.ts` calls `semver.valid` and `semver.lt`.  The library is not
part of this repository; we model its strict-mode behaviour: a version is
`MAJOR.MINOR.PATCH` of numeric identifiers without leading zeros, an
optional leading `v`, optional dot-separated pre-release identifiers after
`-`, optional build metadata after `+` (ignored by comparison); ordering is
lexicographic on the numeric triple, then a pre-release sorts before the
bare version, then pre-release identifier lists compare pointwise. -/

def isDigitCh (c : Char) : Bool := '0' ≤ c && c ≤ '9'

def isIdentCh (c : Char) : Bool :=
  isDigitCh c || ('a' ≤ c && c ≤ 'z') || ('A' ≤ c && c ≤ 'Z') || c = '-'

def digitsToNat (s : List Char) : Nat :=
  s.foldl (fun n c => n * 10 + (c.toNat - '0'.toNat)) 0

/-- Parse a semver numeric identifier: nonempty digits, no leading zero. -/
def parseNumericId (s : List Char) : Option Nat :=
  if s.isEmpty then none
  else if s.all isDigitCh then
    if s.length > 1 && s.headD ' ' = '0' then none
    else some (digitsToNat s)
  else none

/-- Split a character list at every occurrence of `c`. -/
def splitOnCh (c : Char) : List Char → List (List Char)
  | [] => [[]]
  | x :: xs =>
    let rest := splitOnCh c xs
    if x = c then [] :: rest
    else match rest with
      | [] => [[x]]
      | r :: rs => (x :: r) :: rs

/-- Split at the first occurrence of `c`, if any. -/
def splitFirstCh (c : Char) : List Char → List Char × Option (List Char)
  | [] => ([], none)
  | x :: xs =>
    if x = c then ([], some xs)
    else
      let (l, r) := splitFirstCh c xs
      (x :: l, r)

/-- A semver pre-release identifier: nonempty, alphanumeric/hyphen, and if
purely numeric it must not have a leading zero. -/
def validPreId (s : List Char) : Bool :=
  !s.isEmpty && s.all isIdentCh &&
    (if s.all isDigitCh then (parseNumericId s).isSome else true)

/-- A semver build-metadata identifier: nonempty, alphanumeric/hyphen. -/
def validBuildId (s : List Char) : Bool :=
  !s.isEmpty && s.all isIdentCh

structure SemVer where
  major : Nat
  minor : Nat
  patch : Nat
  prerelease : List (List Char)
deriving DecidableEq, Repr

def isWsCh (c : Char) : Bool := c = ' ' || c = '\t' || c = '\n' || c = '\r'

def trimChars (s : List Char) : List Char :=
  ((s.dropWhile isWsCh).reverse.dropWhile isWsCh).reverse

/-- Model of `semver.parse` / `semver.valid` (strict mode; the `SemVer`
constructor trims whitespace and tolerates a leading `v`). -/
def parseSemver (str : String) : Option SemVer :=
  let s := trimChars str.data
  let s := match s with
    | 'v' :: rest => rest
    | other => other
  let (beforeBuild, build) := splitFirstCh '+' s
  let buildOk := match build with
    | none => true
    | some b => (splitOnCh '.' b).all validBuildId
  if buildOk then
    let (core, pre) := splitFirstCh '-' beforeBuild
    let preOk := match pre with
      | none => true
      | some p => (splitOnCh '.' p).all validPreId
    if preOk then
      match splitOnCh '.' core with
      | [a, b, c] =>
        match parseNumericId a, parseNumericId b, parseNumericId c with
        | some major, some minor, some patch =>
          some { major, minor, patch,
                 prerelease := match pre with
                   | none => []
                   | some p => splitOnCh '.' p }
        | _, _, _ => none
      | _ => none
    else none
  else none

/-- Compare two pre-release identifiers (numeric before alphanumeric,
numeric by value, alphanumeric by ASCII order). -/
def preIdLt (a b : List Char) : Bool :=
  match parseNumericId a, parseNumericId b with
  | some x, some y => x < y
  | some _, none => true
  | none, some _ => false
  | none, none => decide (String.mk a < String.mk b)

def preListLt : List (List Char) → List (List Char) → Bool
  | [], [] => false
  | [], _ :: _ => true
  | _ :: _, [] => false
  | a :: as, b :: bs => if a = b then preListLt as bs else preIdLt a b

/-- Model of semver precedence `<` on parsed versions. -/
def semverLtV (x y : SemVer) : Bool :=
  if x.major ≠ y.major then x.major < y.major
  else if x.minor ≠ y.minor then x.minor < y.minor
  else if x.patch ≠ y.patch then x.patch < y.patch
  else match x.prerelease, y.prerelease with
    | [], [] => false
    | _ :: _, [] => true
    | [], _ :: _ => false
    | as, bs => preListLt as bs

/-- Model of `semver.lt` on version strings (only ever called after a
successful `semver.valid` check in the embedded code). -/
def semverLtStr (a b : String) : Bool :=
  match parseSemver a, parseSemver b with
  | some x, some y => semverLtV x y
  | _, _ => false

/-! ## Node delegate (`src/deploy/functions/runtimes/node/index.ts`) -/

namespace NodeDelegate

/-- Source: `const MIN_FUNCTIONS_SDK_VERSION = "3.20.0";` -/
def MIN_FUNCTIONS_SDK_VERSION : String := "3.20.0"

/-- The `Delegate`'s mutable `_sdkVersion` field: `undefined` initially,
a string after the first read of the `sdkVersion` getter. -/
abbrev SdkCache := Option String

/-- One read of the `sdkVersion` getter.
`lookup` is the outcome of `versioning.getFunctionsSDKVersion(this.sourceDir)`
(`none` = `undefined`); the getter stores `lookup || ""`.
Returns (value read, new `_sdkVersion` field, whether the lookup ran). -/
def sdkVersionRead (lookup : Option String) : SdkCache → String × SdkCache × Bool
  | none =>
    let v := lookup.getD ""
    (v, some v, true)
  | some v => (v, some v, false)

/-- A sequence of `n` reads of the `sdkVersion` getter, threading the cache;
returns the values read, the final cache, and how many times the lookup ran. -/
def sdkReads (lookup : Option String) : Nat → SdkCache → List String × SdkCache × Nat
  | 0, st => ([], st, 0)
  | n + 1, st =>
    let (v, st2, did) := sdkVersionRead lookup st
    let (vs, st3, k) := sdkReads lookup n st2
    (v :: vs, st3, (if did then 1 else 0) + k)

/-- The environment object built at the top of `Delegate.serve`:
`{...envs, PORT, FUNCTIONS_CONTROL_API, HOME, PATH, NODE_ENV}` followed by
`env.CLOUD_RUNTIME_CONFIG = JSON.stringify(config)` when
`Object.keys(config || {}).length` is nonzero.  Environments are total maps
from variable name to optional value (`none` = unset/undefined); `host` is
the parent `process.env`, `envs` the caller-supplied bindings; `config` is
the config object as a key/value list, `configBlob` its serialization.
Later properties override earlier ones, so the lookup checks the explicit
assignments (last first) before falling back to the spread `envs`. -/
def serveEnv (host envs : String → Option String) (port : Nat)
    (config : List (String × String)) (configBlob : String) :
    String → Option String := fun k =>
  if k = "CLOUD_RUNTIME_CONFIG" && !config.isEmpty then some configBlob
  else if k = "NODE_ENV" then host "NODE_ENV"
  else if k = "PATH" then host "PATH"
  else if k = "HOME" then host "HOME"
  else if k = "FUNCTIONS_CONTROL_API" then some "true"
  else if k = "PORT" then some (toString port)
  else envs k

/-- How the teardown closure returned by `Delegate.serve` settles. -/
inductive Settle
  | resolved
  | rejected (msg : String)
  /-- the promise never settles -/
  | pending
deriving DecidableEq, Repr

/-- Observable side effects of one invocation of the serve teardown. -/
inductive TdEvent
  /-- the quit request `fetch(http://localhost:PORT/__/quitquitquit)` was issued -/
  | fetchQuit
deriving DecidableEq, Repr

/-- First lifecycle event the child emits after the teardown subscribes. -/
inductive FirstEv
  | exitEv
  | errorEv (msg : String)
deriving DecidableEq, Repr

/-- The teardown closure returned by `Delegate.serve`:
```
const p = new Promise((resolve, reject) => \x7b
  childProcess.once("exit", resolve);
  childProcess.once("error", reject);
\x7d);
await fetch(http://localhost:PORT/__/quitquitquit);
setTimeout(SIGKILL if !childProcess.killed, 10_000);
return p;
```
Inputs: `alreadyExited` — the child's `exit` event fired before this call
(so the freshly attached `once` handlers can never fire again); `fetchOk` —
whether the quit request resolves (it is rejected with `ECONNREFUSED` when
nothing listens on the port); `ev` — otherwise, the first event the child
emits.  The `await fetch` rethrows a rejection out of the teardown; a
pre-exited child leaves `p` forever pending (the 10s SIGKILL timer kills an
already-dead process, which emits no further `exit`). -/
def serveTeardown (alreadyExited fetchOk : Bool) (ev : FirstEv) :
    List TdEvent × Settle :=
  if !fetchOk then ([.fetchQuit], .rejected "fetch failed: ECONNREFUSED")
  else if alreadyExited then ([.fetchQuit], .pending)
  else match ev with
    | .exitEv => ([.fetchQuit], .resolved)
    | .errorEv m => ([.fetchQuit], .rejected m)

/-- The teardown returned by the node `Delegate.watch`:
`() => Promise.resolve()`. -/
def watchTeardown : List TdEvent × Settle := ([], .resolved)

/-- Observable events of one `Delegate.discoverBuild` call, in order. -/
inductive Event
  /-- debug log `Could not parse firebase-functions version ...` (not a warning) -/
  | debugFallbackLog
  /-- warning `You are using an old version of firebase-functions SDK ...` -/
  | warnOutdated
  /-- call into `parseTriggers.discoverBuild` (legacy fallback) -/
  | parseTriggersCall
  /-- static discovery attempt `discovery.detectFromYaml(sourceDir, ...)` -/
  | detectYaml
  /-- the call `portfinder.getPort()` resolved with `port` -/
  | acquirePort (port : Nat)
  /-- the call `this.serve(port, config, env)` spawned the child process -/
  | spawnServe (port : Nat)
  /-- live probe `discovery.detectFromPort(port, ...)` -/
  | probePort (port : Nat)
  /-- the teardown returned by `serve` was invoked (`await kill()`) -/
  | teardownCall
deriving DecidableEq, Repr

/-- Outcomes of the external effects one `discoverBuild` call performs. -/
structure World where
  /-- result of `versioning.getFunctionsSDKVersion(sourceDir)` (first
  getter read; `none` = `undefined`, cached as `""`) -/
  sdkLookup : Option String
  /-- what `parseTriggers.discoverBuild` would return (legacy path) -/
  legacyBuild : Build
  /-- result of `discovery.detectFromYaml` (`none` = no static manifest) -/
  yamlBuild : Option Build
  /-- the port `portfinder.getPort()` yields -/
  port : Nat
  /-- how `discovery.detectFromPort` settles -/
  probeResult : Except FirebaseError Build
  /-- how `await kill()` — the serve teardown — settles (it can reject:
  see `serveTeardown`) -/
  killResult : Except FirebaseError Unit
deriving Repr

/-- The delegate's `sdkVersion` as `discoverBuild` observes it (fresh
delegate, so the first read populates the cache). -/
def World.sdkVersion (w : World) : String := w.sdkLookup.getD ""

/-- Embedding of `Delegate.discoverBuild(config, env)`:
```
if (!semver.valid(this.sdkVersion)) \x7b logger.debug(...); return parseTriggers...; \x7d
if (semver.lt(this.sdkVersion, MIN_FUNCTIONS_SDK_VERSION)) \x7b
  logLabeledWarning(...); return parseTriggers...; \x7d
let discovered = await discovery.detectFromYaml(...);
if (!discovered) \x7b
  const port = await getPort();
  const kill = await this.serve(port, config, env);
  try \x7b discovered = await discovery.detectFromPort(port, ...); \x7d
  finally \x7b await kill(); \x7d
\x7d
return discovered;
```
Returns the ordered event trace and the settled result; the `finally`
makes `teardownCall` part of the trace on both probe outcomes, and per
JS try/finally semantics a rejection thrown by `await kill()` inside the
`finally` supersedes the try block's outcome (whether the probe resolved
or rejected), so the call only settles with the probe's outcome when the
teardown resolves. -/
def discoverBuild (w : World) : List Event × Except FirebaseError Build :=
  if (parseSemver w.sdkVersion).isNone then
    ([.debugFallbackLog, .parseTriggersCall], .ok w.legacyBuild)
  else if semverLtStr w.sdkVersion MIN_FUNCTIONS_SDK_VERSION then
    ([.warnOutdated, .parseTriggersCall], .ok w.legacyBuild)
  else
    match w.yamlBuild with
    | some b => ([.detectYaml], .ok b)
    | none =>
      ([.detectYaml, .acquirePort w.port, .spawnServe w.port,
        .probePort w.port, .teardownCall],
       match w.killResult with
       | .ok _ => w.probeResult
       | .error e => .error e)

end NodeDelegate

/-! ## Substring helper (used to state what an error message names) -/

/-- Does the list start with `pat`? -/
def leadsWith : List Char → List Char → Bool
  | _, [] => true
  | [], _ :: _ => false
  | a :: as, b :: bs => a = b && leadsWith as bs

/-- Does the list contain `pat` as a contiguous run? -/
def hasSubList : List Char → List Char → Bool
  | [], pat => pat.isEmpty
  | c :: rest, pat => leadsWith (c :: rest) pat || hasSubList rest pat

/-- Does string `s` contain `pat` as a substring? -/
def hasSubstr (s pat : String) : Bool := hasSubList s.data pat.data

/-! ## Dart delegate (`src/deploy/functions/runtimes/dart/index.ts`) -/

namespace DartDelegate

/-- State of a `ChildProcess` as the dart `watch` teardown observes it:
the `killed` flag (set by Node whenever `proc.kill(signal)` sends a
signal) and `exitCode` (`none` until the process has exited). -/
structure Proc where
  killed : Bool
  exitCode : Option Int
deriving DecidableEq, Repr

/-- Signals the teardown can send. -/
inductive Sig
  | sigterm
  | sigkill
deriving DecidableEq, Repr

/-- The `killProcess` helper inside the `watch` teardown:
`if (!proc.killed && proc.exitCode === null) proc.kill("SIGTERM")`.
Returns the new process state and the signal sent, if any.  Sending a
signal sets the `killed` flag. -/
def killProcess (p : Proc) : Proc × Option Sig :=
  if !p.killed && p.exitCode.isNone then ({ p with killed := true }, some .sigterm)
  else (p, none)

/-- The force-kill step after the 2s grace wait:
`if (!proc.killed && proc.exitCode === null) proc.kill("SIGKILL")`. -/
def forceKill (p : Proc) : Proc × Option Sig :=
  if !p.killed && p.exitCode.isNone then ({ p with killed := true }, some .sigkill)
  else (p, none)

/-- The final wait of the teardown for one process:
`if (proc.killed || proc.exitCode !== null) resolve(); else proc.once("exit", resolve)`.
`laterExit` says whether the process eventually emits `exit` (only
consulted when the immediate check fails). -/
def waitExited (p : Proc) (laterExit : Bool) : Bool :=
  p.killed || p.exitCode.isSome || laterExit

/-- One process's slice of the `watch` teardown: SIGTERM attempt, the 2s
grace wait during which the process may exit (`graceExit`), SIGKILL
attempt, final wait.  Returns the final state, the signals sent in order,
and whether this process's exit promise resolves. -/
def teardownOne (p : Proc) (graceExit : Option Int) (laterExit : Bool) :
    Proc × List Sig × Bool :=
  let (p1, s1) := killProcess p
  let p2 := if p1.exitCode.isNone then { p1 with exitCode := graceExit } else p1
  let (p3, s2) := forceKill p2
  (p3, s1.toList ++ s2.toList, waitExited p3 laterExit)

/-- The full teardown returned by `Delegate.watch`, supervising the
`dart run` process and the `build_runner watch` process symmetrically:
graceful `killProcess` on both, one shared 2s wait, force-kill check on
both, then `Promise.all` of the two exit waits.  It resolves iff both
waits resolve. -/
def watchTeardown (dartRun buildRunner : Proc)
    (graceExitA graceExitB : Option Int) (laterExitA laterExitB : Bool) :
    (Proc × Proc) × List Sig × Bool :=
  let (a, sa, ra) := teardownOne dartRun graceExitA laterExitA
  let (b, sb, rb) := teardownOne buildRunner graceExitB laterExitB
  ((a, b), sa ++ sb, ra && rb)

/-- Environment of every subprocess the dart delegate spawns.  All three
`spawn` calls (`dart run` and `build_runner watch` in `watch`,
`build_runner build` in `discoverBuild`) pass options `{cwd, stdio}` with
no `env` key, so `child_process` defaults the child environment to the
full parent `process.env`: a complete passthrough. -/
def spawnEnv (host : String → Option String) : String → Option String := host

/-- Observable events of one dart `discoverBuild` call, in order. -/
inductive Event
  /-- static discovery attempt `discovery.detectFromYaml(yamlDir, ...)` -/
  | detectYaml
  /-- spawned `dart run build_runner build` -/
  | spawnBuildRunner
  /-- re-ran `discovery.detectFromYaml` after the generator finished -/
  | detectYamlRetry
deriving DecidableEq, Repr

/-- How the generator subprocess finishes: the `exit` event with its code
(`null` when terminated by a signal) or the `error` event. -/
inductive ProcOutcome
  | exited (code : Option Int)
  | errored (msg : String)
deriving DecidableEq, Repr

/-- Outcomes of the external effects one dart `discoverBuild` performs. -/
structure World where
  sourceDir : String
  /-- first `detectFromYaml` result (`none` = no static manifest) -/
  yamlBuild1 : Option Build
  /-- how the `build_runner build` subprocess finishes -/
  procOutcome : ProcOutcome
  /-- second `detectFromYaml` result, after the generator ran -/
  yamlBuild2 : Option Build
deriving Repr

/-- Path `path.join(sourceDir, ".dart_tool", "firebase")`. -/
def yamlDir (sourceDir : String) : String := sourceDir ++ "/.dart_tool/firebase"

/-- Path `path.join(yamlDir, "functions.yaml")`. -/
def yamlPath (sourceDir : String) : String := yamlDir sourceDir ++ "/functions.yaml"

/-- Rendering of the exit code in the template string
`build_runner failed with exit code ${code}` (only reached when the code
is a nonzero number). -/
def codeStr : Option Int → String
  | none => "null"
  | some c => toString c

/-- Message of the rejection raised when the generator exits non-zero. -/
def buildRunnerFailedMsg (code : Option Int) : String :=
  "build_runner failed with exit code " ++ codeStr code ++
    ". Make sure your Dart project is properly configured."

/-- Message of the error thrown when the manifest is still absent after a
successful generator run. -/
def missingYamlMsg (sourceDir : String) : String :=
  "Could not find functions.yaml at " ++ yamlPath sourceDir ++
    " after running build_runner. Make sure your Dart project is properly configured with firebase_functions."

/-- Embedding of the dart `Delegate.discoverBuild`:
```
let discovered = await discovery.detectFromYaml(yamlDir, ...);
if (!discovered) \x7b
  const buildRunnerProcess = spawn(this.bin, [run, build_runner, build], ...);
  await new Promise((resolve, reject) => \x7b
    buildRunnerProcess.on("exit", (code) => \x7b
      if (code === 0 || code === null) resolve();
      else reject(new FirebaseError(build_runner failed with exit code ...));
    \x7d);
    buildRunnerProcess.on("error", reject);
  \x7d);
  discovered = await discovery.detectFromYaml(yamlDir, ...);
  if (!discovered) throw new FirebaseError(Could not find functions.yaml at ...);
\x7d
return discovered;
``` -/
def discoverBuild (w : World) : List Event × Except FirebaseError Build :=
  match w.yamlBuild1 with
  | some b => ([.detectYaml], .ok b)
  | none =>
    match w.procOutcome with
    | .errored m => ([.detectYaml, .spawnBuildRunner], .error ⟨m⟩)
    | .exited code =>
      if code = some 0 || code = none then
        match w.yamlBuild2 with
        | some b => ([.detectYaml, .spawnBuildRunner, .detectYamlRetry], .ok b)
        | none =>
          ([.detectYaml, .spawnBuildRunner, .detectYamlRetry],
           .error ⟨missingYamlMsg w.sourceDir⟩)
      else
        ([.detectYaml, .spawnBuildRunner], .error ⟨buildRunnerFailedMsg code⟩)

end DartDelegate

/-! ## Secret-access reconciliation (`src/deploy/functions/ensure.ts`) -/

namespace Ensure

/-- One entry of an endpoint's `secretEnvironmentVariables` array (only the
`secret` field is read by this code). -/
structure SecretEnvVar where
  secret : String
deriving DecidableEq, Repr

/-- An endpoint, restricted to the fields `secretsToServiceAccounts`
reads: `project`, `serviceAccountEmail` and `secretEnvironmentVariables`
(the latter two possibly undefined). -/
structure Endpoint where
  project : String
  serviceAccountEmail : Option String
  secretEnvironmentVariables : Option (List SecretEnvVar)
deriving DecidableEq, Repr

/-- A backend, modelled by its `backend.allEndpoints` list (the only view
of it this code uses), in iteration order. -/
abbrev Backend := List Endpoint

/-- An insertion-ordered set of service accounts (a JS `Set`). -/
abbrev SaSet := List String

/-- A JS object mapping secret name to service-account set, as an
insertion-ordered association list (JS objects preserve insertion order
for string keys). -/
abbrev SecretMap := List (String × SaSet)

/-- Lookup `m[k]` (`none` = the property is `undefined`). -/
def lookupSec (m : SecretMap) (k : String) : Option SaSet :=
  (m.find? (fun p => p.1 = k)).map (fun p => p.2)

/-- JS `Set.prototype.add`: append if absent. -/
def addToSet (s : SaSet) (sa : String) : SaSet :=
  if sa ∈ s then s else s ++ [sa]

/-- Assignment `m[k]` gaining `sa`:
`const serviceAccounts = m[k] || new Set(); serviceAccounts.add(sa); m[k] = serviceAccounts;`
A new key is appended at the end (JS insertion order). -/
def insertSec (m : SecretMap) (k sa : String) : SecretMap :=
  match m with
  | [] => [(k, [sa])]
  | (k2, v) :: rest =>
    if k2 = k then (k2, addToSet v sa) :: rest
    else (k2, v) :: insertSec rest k sa

/-- The effective service account of an endpoint:
`e.serviceAccountEmail || defaultServiceAccount(e.project)` (the JS `||`
also replaces an empty string).  `dsa` abstracts the external
`defaultServiceAccount` from `gcp/cloudfunctions`. -/
def endpointSa (dsa : String → String) (e : Endpoint) : String :=
  match e.serviceAccountEmail with
  | none => dsa e.project
  | some s => if s = "" then dsa e.project else s

/-- Embedding of `secretsToServiceAccounts`: for each endpoint, for each
secret env var (`e.secretEnvironmentVariables! || []`), bind the secret
to the endpoint's service account. -/
def secretsToServiceAccounts (dsa : String → String) (b : Backend) : SecretMap :=
  b.foldl
    (fun m e =>
      (e.secretEnvironmentVariables.getD []).foldl
        (fun m2 s => insertSec m2 s.secret (endpointSa dsa e)) m)
    []

/-- Delete key `k` (JS `delete m[k]`). -/
def removeSec (m : SecretMap) (k : String) : SecretMap :=
  m.filter (fun p => !(p.1 = k))

/-- Overwrite the value at key `k` (keys unchanged). -/
def setSec (m : SecretMap) (k : String) (v : SaSet) : SecretMap :=
  m.map (fun p => if p.1 = k then (k, v) else p)

/-- One iteration of the pruning loop body of `ensureSecretAccess` for the
pair `(secret, sa)` taken from `haveSecrets`:
```
if (wantSecrets?.[secret].has(serviceAccount)) \x7b
  wantSecrets[secret].delete(serviceAccount);
  if (wantSecrets[secret].size === 0) delete wantSecrets[secret];
\x7d
```
The optional chaining guards `wantSecrets` itself, not `wantSecrets[secret]`,
so when the secret is absent the `.has` call dereferences `undefined`:
`none` models the thrown `TypeError`. -/
def pruneStep (want : SecretMap) (secret sa : String) : Option SecretMap :=
  match lookupSec want secret with
  | none => none
  | some sas =>
    if sa ∈ sas then
      let sas2 := sas.erase sa
      if sas2.isEmpty then some (removeSec want secret)
      else some (setSec want secret sas2)
    else some want

/-- The pruning double loop, flattened over the `(secret, serviceAccount)`
pairs of `haveSecrets` in iteration order; stops at the first thrown
`TypeError`. -/
def prunePairs (want : SecretMap) : List (String × String) → Option SecretMap
  | [] => some want
  | (s, sa) :: rest =>
    match pruneStep want s sa with
    | none => none
    | some w2 => prunePairs w2 rest

/-- Flatten a `SecretMap` into its `(secret, serviceAccount)` pairs in
iteration order (`Object.entries` then the inner `for..of` over the set). -/
def flattenPairs (m : SecretMap) : List (String × String) :=
  m.flatMap (fun p => p.2.map (fun sa => (p.1, sa)))

/-- Embedding of `ensureSecretAccess(projectId, wantBackend, haveBackend)`:
builds the two secret maps, runs the pruning loop, then (only if the loop
did not throw) issues one `ensureAccess` IAM call per remaining entry.
`none` models the `TypeError` escaping before any IAM call is created;
`some calls` lists the IAM calls issued. -/
def ensureSecretAccess (dsa : String → String) (wantB haveB : Backend) :
    Option (List (String × SaSet)) :=
  let wantSecrets := secretsToServiceAccounts dsa wantB
  let haveSecrets := secretsToServiceAccounts dsa haveB
  (prunePairs wantSecrets (flattenPairs haveSecrets)).map (fun w => w)

end Ensure

/-- A host environment holding an unrelated secret variable. -/
def hostWithSecret : String → Option String :=
  fun k => if k = "SOME_SECRET" then some "hunter2" else none

/-- An empty host environment. -/
def hostEmpty : String → Option String := fun _ => none

/-! ## Theorems -/

/-- Reads of the `sdkVersion` getter from a populated cache never run the
lookup and all return the cached value. -/
theorem sdkReads_cached (lookup : Option String) (v : String) :
    ∀ n, NodeDelegate.sdkReads lookup n (some v) = (List.replicate n v, some v, 0)
  | 0 => rfl
  | n + 1 => by
    simp [NodeDelegate.sdkReads, NodeDelegate.sdkVersionRead, sdkReads_cached lookup v n,
      List.replicate_succ]

/-- Claim C1: in the node delegate's `discoverBuild`, an SDK version string
that fails semver parsing routes to the legacy `parseTriggers` fallback and
emits no outdated-version warning; a version that parses below the
`"3.20.0"` threshold routes to the same fallback and emits exactly one
outdated-version warning; a parsed version at or above the threshold takes
no fallback and emits no warning. -/
theorem node_discoverBuild_version_gate (w : NodeDelegate.World) :
    (parseSemver w.sdkVersion = none →
      (NodeDelegate.discoverBuild w).1.count NodeDelegate.Event.parseTriggersCall = 1 ∧
      (NodeDelegate.discoverBuild w).1.count NodeDelegate.Event.warnOutdated = 0) ∧
    (∀ v, parseSemver w.sdkVersion = some v →
      semverLtStr w.sdkVersion NodeDelegate.MIN_FUNCTIONS_SDK_VERSION = true →
      (NodeDelegate.discoverBuild w).1.count NodeDelegate.Event.parseTriggersCall = 1 ∧
      (NodeDelegate.discoverBuild w).1.count NodeDelegate.Event.warnOutdated = 1) ∧
    (∀ v, parseSemver w.sdkVersion = some v →
      semverLtStr w.sdkVersion NodeDelegate.MIN_FUNCTIONS_SDK_VERSION = false →
      (NodeDelegate.discoverBuild w).1.count NodeDelegate.Event.parseTriggersCall = 0 ∧
      (NodeDelegate.discoverBuild w).1.count NodeDelegate.Event.warnOutdated = 0) := by
  refine ⟨fun h => ?_, fun v hv hlt => ?_, fun v hv hge => ?_⟩
  · simp [NodeDelegate.discoverBuild, h]
  · simp [NodeDelegate.discoverBuild, hv, hlt]
  · cases hy : w.yamlBuild <;>
      simp [NodeDelegate.discoverBuild, hv, hge, hy]

/-- Witness for C1: an unparseable version (`"not-a-version"`), an outdated
version (`"3.10.0"`) and a current version (`"3.25.0"`). -/
theorem node_discoverBuild_version_gate_witness :
    ((NodeDelegate.discoverBuild ⟨some "not-a-version", ⟨[]⟩, none, 0, .ok ⟨[]⟩, .ok ()⟩).1.count
        NodeDelegate.Event.parseTriggersCall = 1 ∧
      (NodeDelegate.discoverBuild ⟨some "not-a-version", ⟨[]⟩, none, 0, .ok ⟨[]⟩, .ok ()⟩).1.count
        NodeDelegate.Event.warnOutdated = 0) ∧
    ((NodeDelegate.discoverBuild ⟨some "3.10.0", ⟨[]⟩, none, 0, .ok ⟨[]⟩, .ok ()⟩).1.count
        NodeDelegate.Event.parseTriggersCall = 1 ∧
      (NodeDelegate.discoverBuild ⟨some "3.10.0", ⟨[]⟩, none, 0, .ok ⟨[]⟩, .ok ()⟩).1.count
        NodeDelegate.Event.warnOutdated = 1) ∧
    ((NodeDelegate.discoverBuild ⟨some "3.25.0", ⟨[]⟩, none, 0, .ok ⟨[]⟩, .ok ()⟩).1.count
        NodeDelegate.Event.parseTriggersCall = 0 ∧
      (NodeDelegate.discoverBuild ⟨some "3.25.0", ⟨[]⟩, none, 0, .ok ⟨[]⟩, .ok ()⟩).1.count
        NodeDelegate.Event.warnOutdated = 0) :=
  ⟨(node_discoverBuild_version_gate _).1 (by decide),
   (node_discoverBuild_version_gate _).2.1 ⟨3, 10, 0, []⟩ (by decide) (by decide),
   (node_discoverBuild_version_gate _).2.2 ⟨3, 25, 0, []⟩ (by decide) (by decide)⟩

/-- Claim C2: whenever the static trigger manifest is present and parses
(`detectFromYaml` returns a build), `discoverBuild` returns it directly and
the trace contains no port acquisition and no subprocess spawn — for the
node delegate under the precondition that the SDK version is valid semver
at or above the threshold, and for the dart delegate unconditionally;
moreover in every trace that does spawn, static discovery comes first. -/
theorem discoverBuild_static_short_circuit :
    (∀ (w : NodeDelegate.World) (b : Build),
      (parseSemver w.sdkVersion).isSome = true →
      semverLtStr w.sdkVersion NodeDelegate.MIN_FUNCTIONS_SDK_VERSION = false →
      w.yamlBuild = some b →
      NodeDelegate.discoverBuild w = ([NodeDelegate.Event.detectYaml], .ok b)) ∧
    (∀ (w : NodeDelegate.World) (p : Nat),
      NodeDelegate.Event.spawnServe p ∈ (NodeDelegate.discoverBuild w).1 →
      (NodeDelegate.discoverBuild w).1.head? = some NodeDelegate.Event.detectYaml) ∧
    (∀ (w : DartDelegate.World) (b : Build),
      w.yamlBuild1 = some b →
      DartDelegate.discoverBuild w = ([DartDelegate.Event.detectYaml], .ok b)) ∧
    (∀ w : DartDelegate.World,
      DartDelegate.Event.spawnBuildRunner ∈ (DartDelegate.discoverBuild w).1 →
      (DartDelegate.discoverBuild w).1.head? = some DartDelegate.Event.detectYaml) := by
  refine ⟨fun w b hv hge hy => ?_, fun w p hmem => ?_, fun w b hy => ?_, fun w hmem => ?_⟩
  · rcases h : parseSemver w.sdkVersion with _ | v
    · rw [h] at hv; simp at hv
    · simp [NodeDelegate.discoverBuild, h, hge, hy]
  · rcases h : parseSemver w.sdkVersion with _ | v
    · simp [NodeDelegate.discoverBuild, h] at hmem
    · rcases hlt : semverLtStr w.sdkVersion NodeDelegate.MIN_FUNCTIONS_SDK_VERSION
      · rcases hy : w.yamlBuild with _ | b <;>
          simp [NodeDelegate.discoverBuild, h, hlt, hy] at hmem ⊢
      · simp [NodeDelegate.discoverBuild, h, hlt] at hmem
  · simp [DartDelegate.discoverBuild, hy]
  · rcases hy : w.yamlBuild1 with _ | b
    · rcases hp : w.procOutcome with code | m
      · rcases hc : w.yamlBuild2 with _ | b <;>
          simp [DartDelegate.discoverBuild, hy, hp, hc] <;>
          split <;> simp
      · simp [DartDelegate.discoverBuild, hy, hp]
    · simp [DartDelegate.discoverBuild, hy] at hmem

/-- Witness for C2: a node world and a dart world whose static manifest is
present. -/
theorem discoverBuild_static_short_circuit_witness :
    NodeDelegate.discoverBuild ⟨some "3.25.0", ⟨[]⟩, some ⟨["f"]⟩, 0, .ok ⟨[]⟩, .ok ()⟩ =
      ([NodeDelegate.Event.detectYaml], .ok ⟨["f"]⟩) ∧
    DartDelegate.discoverBuild ⟨"/src", some ⟨["g"]⟩, .exited (some 0), none⟩ =
      ([DartDelegate.Event.detectYaml], .ok ⟨["g"]⟩) :=
  ⟨discoverBuild_static_short_circuit.1 _ ⟨["f"]⟩ (by decide) (by decide) rfl,
   discoverBuild_static_short_circuit.2.2.1 _ ⟨["g"]⟩ rfl⟩

/-- Claim C3: in the node delegate's `discoverBuild`, when the version gate
passes and no static manifest is found, the trace is exactly: static
attempt, port acquisition, one serve spawn, the port probe, then exactly
one teardown invocation — the same trace whether the probe resolves or
rejects, so on probe rejection the teardown has already run before any
error propagates.  The call settles with the probe's outcome when the
teardown resolves; a rejecting teardown supersedes the probe's outcome
(JS `finally` semantics). -/
theorem node_discoverBuild_live_protocol (w : NodeDelegate.World)
    (hv : (parseSemver w.sdkVersion).isSome = true)
    (hge : semverLtStr w.sdkVersion NodeDelegate.MIN_FUNCTIONS_SDK_VERSION = false)
    (hyaml : w.yamlBuild = none) :
    (NodeDelegate.discoverBuild w).1 =
      [NodeDelegate.Event.detectYaml, NodeDelegate.Event.acquirePort w.port,
       NodeDelegate.Event.spawnServe w.port, NodeDelegate.Event.probePort w.port,
       NodeDelegate.Event.teardownCall] ∧
    (NodeDelegate.discoverBuild w).1.count (NodeDelegate.Event.spawnServe w.port) = 1 ∧
    (NodeDelegate.discoverBuild w).1.count NodeDelegate.Event.teardownCall = 1 ∧
    (w.killResult = .ok () → (NodeDelegate.discoverBuild w).2 = w.probeResult) ∧
    (∀ e, w.killResult = .error e → (NodeDelegate.discoverBuild w).2 = .error e) := by
  rcases h : parseSemver w.sdkVersion with _ | v
  · rw [h] at hv; simp at hv
  · refine ⟨?_, ?_, ?_, fun hk => ?_, fun e hk => ?_⟩
    · simp [NodeDelegate.discoverBuild, h, hge, hyaml]
    · simp [NodeDelegate.discoverBuild, h, hge, hyaml, List.count_cons]
    · simp [NodeDelegate.discoverBuild, h, hge, hyaml, List.count_cons]
    · simp [NodeDelegate.discoverBuild, h, hge, hyaml, hk]
    · simp [NodeDelegate.discoverBuild, h, hge, hyaml, hk]

/-- Witness for C3: a concrete world whose probe rejects while the teardown
resolves — the trace still ends with the teardown and the probe's rejection
is the call's outcome. -/
theorem node_discoverBuild_live_protocol_witness :
    (NodeDelegate.discoverBuild ⟨some "3.25.0", ⟨[]⟩, none, 8080,
        .error ⟨"Failed to detect from port"⟩, .ok ()⟩).1 =
      [NodeDelegate.Event.detectYaml, NodeDelegate.Event.acquirePort 8080,
       NodeDelegate.Event.spawnServe 8080, NodeDelegate.Event.probePort 8080,
       NodeDelegate.Event.teardownCall] ∧
    (NodeDelegate.discoverBuild ⟨some "3.25.0", ⟨[]⟩, none, 8080,
        .error ⟨"Failed to detect from port"⟩, .ok ()⟩).1.count
      (NodeDelegate.Event.spawnServe 8080) = 1 ∧
    (NodeDelegate.discoverBuild ⟨some "3.25.0", ⟨[]⟩, none, 8080,
        .error ⟨"Failed to detect from port"⟩, .ok ()⟩).1.count
      NodeDelegate.Event.teardownCall = 1 ∧
    (NodeDelegate.discoverBuild ⟨some "3.25.0", ⟨[]⟩, none, 8080,
        .error ⟨"Failed to detect from port"⟩, .ok ()⟩).2 =
      .error ⟨"Failed to detect from port"⟩ := by
  have h := node_discoverBuild_live_protocol
    ⟨some "3.25.0", ⟨[]⟩, none, 8080, .error ⟨"Failed to detect from port"⟩, .ok ()⟩
    (by decide) (by decide) rfl
  exact ⟨h.1, h.2.1, h.2.2.1, h.2.2.2.1 rfl⟩

/-- Claim C8: the node delegate's SDK version is resolved lazily and at
most once: the first getter read runs the lookup and caches `lookup || ""`,
any read from a populated cache returns the cached value without running
the lookup, and across any sequence of `n ≥ 1` reads on a fresh delegate
the lookup runs exactly once and all reads return the same string. -/
theorem node_sdkVersion_lazy_cached (lookup : Option String) (v : String) (n : Nat)
    (h : 1 ≤ n) :
    NodeDelegate.sdkVersionRead lookup none = (lookup.getD "", some (lookup.getD ""), true) ∧
    NodeDelegate.sdkVersionRead lookup (some v) = (v, some v, false) ∧
    (NodeDelegate.sdkReads lookup n none).2.2 = 1 ∧
    ∀ x ∈ (NodeDelegate.sdkReads lookup n none).1, x = lookup.getD "" := by
  obtain ⟨m, rfl⟩ : ∃ m, n = m + 1 := ⟨n - 1, by omega⟩
  refine ⟨rfl, rfl, ?_, ?_⟩
  · simp [NodeDelegate.sdkReads, NodeDelegate.sdkVersionRead, sdkReads_cached]
  · intro x hx
    simp [NodeDelegate.sdkReads, NodeDelegate.sdkVersionRead, sdkReads_cached] at hx
    rcases hx with h1 | h1
    · exact h1
    · exact h1.2

/-- Witness for C8: three consecutive reads on a fresh delegate with a
declared dependency version of `"3.25.0"`. -/
theorem node_sdkVersion_lazy_cached_witness :
    (1 : Nat) ≤ 3 ∧
    (NodeDelegate.sdkVersionRead (some "3.25.0") none =
      ("3.25.0", some "3.25.0", true) ∧
    NodeDelegate.sdkVersionRead (some "3.25.0") (some "3.25.0") =
      ("3.25.0", some "3.25.0", false) ∧
    (NodeDelegate.sdkReads (some "3.25.0") 3 none).2.2 = 1 ∧
    ∀ x ∈ (NodeDelegate.sdkReads (some "3.25.0") 3 none).1, x = "3.25.0") :=
  ⟨by decide, node_sdkVersion_lazy_cached (some "3.25.0") "3.25.0" 3 (by decide)⟩

/-- A list starts with itself followed by anything. -/
theorem leadsWith_append (p post : List Char) : leadsWith (p ++ post) p = true := by
  induction p with
  | nil => cases post <;> rfl
  | cons a as ih => simp [leadsWith, ih]

/-- A prefix is in particular a contiguous run. -/
theorem hasSubList_of_leadsWith (l p : List Char) (h : leadsWith l p = true) :
    hasSubList l p = true := by
  cases l with
  | nil =>
    cases p with
    | nil => rfl
    | cons b bs => simp [leadsWith] at h
  | cons c rest => simp [hasSubList, h]

/-- A contiguous run survives prepending. -/
theorem hasSubList_append_left (pre l p : List Char) (h : hasSubList l p = true) :
    hasSubList (pre ++ l) p = true := by
  induction pre with
  | nil => simpa using h
  | cons a as ih => simp [hasSubList, ih]

/-- A string sandwiched between two others is a substring of the result. -/
theorem hasSubstr_sandwich (pre p post : String) : hasSubstr (pre ++ p ++ post) p = true := by
  unfold hasSubstr
  have hd : (pre ++ p ++ post).data = pre.data ++ (p.data ++ post.data) := by
    simp [String.data_append]
  rw [hd]
  exact hasSubList_append_left _ _ _
    (hasSubList_of_leadsWith _ _ (leadsWith_append _ _))

/-- Claim C10: in the dart delegate's `discoverBuild`, a generator exit
event with a `null` exit code is treated exactly like exit code `0`: the
wait resolves, discovery proceeds to re-read the static manifest, and only
a strictly nonzero numeric exit code raises the build_runner-failed
rejection. -/
theorem dart_null_exit_code_is_success (w : DartDelegate.World)
    (h : w.procOutcome = DartDelegate.ProcOutcome.exited none) :
    DartDelegate.discoverBuild w =
      DartDelegate.discoverBuild { w with procOutcome := .exited (some 0) } ∧
    (w.yamlBuild1 = none →
      DartDelegate.Event.detectYamlRetry ∈ (DartDelegate.discoverBuild w).1) ∧
    (∀ c : Int, ¬c = 0 → w.yamlBuild1 = none →
      (DartDelegate.discoverBuild { w with procOutcome := .exited (some c) }).2 =
        .error ⟨DartDelegate.buildRunnerFailedMsg (some c)⟩) := by
  refine ⟨?_, fun h1 => ?_, fun c hc h1 => ?_⟩
  · rcases hy : w.yamlBuild1 with _ | b
    · rcases hc : w.yamlBuild2 with _ | b2 <;>
        simp [DartDelegate.discoverBuild, hy, h, hc]
    · simp [DartDelegate.discoverBuild, hy]
  · rcases hc : w.yamlBuild2 with _ | b2 <;>
      simp [DartDelegate.discoverBuild, h1, h, hc]
  · simp [DartDelegate.discoverBuild, h1, hc]

/-- Witness for C10: a signal-terminated generator (`code = null`) behaves
like a successful one, and exit code `1` rejects. -/
theorem dart_null_exit_code_is_success_witness :
    (DartDelegate.discoverBuild ⟨"/src", none, .exited none, some ⟨["g"]⟩⟩ =
      DartDelegate.discoverBuild ⟨"/src", none, .exited (some 0), some ⟨["g"]⟩⟩) ∧
    DartDelegate.Event.detectYamlRetry ∈
      (DartDelegate.discoverBuild ⟨"/src", none, .exited none, some ⟨["g"]⟩⟩).1 ∧
    (DartDelegate.discoverBuild ⟨"/src", none, .exited (some 1), some ⟨["g"]⟩⟩).2 =
      .error ⟨DartDelegate.buildRunnerFailedMsg (some 1)⟩ := by
  have h := dart_null_exit_code_is_success ⟨"/src", none, .exited none, some ⟨["g"]⟩⟩ rfl
  exact ⟨h.1, h.2.1 rfl, h.2.2 1 (by decide) rfl⟩

/-- Counterexample to C6: when the generator exits with code 1, the
rejection message is the build_runner-failed one, which does not
contain the expected `functions.yaml` path. -/
theorem dart_nonzero_exit_error_lacks_path :
    (DartDelegate.discoverBuild ⟨"/home/user/functions", none, .exited (some 1), none⟩).2 =
      .error ⟨"build_runner failed with exit code 1. Make sure your Dart project is properly configured."⟩ ∧
    hasSubstr "build_runner failed with exit code 1. Make sure your Dart project is properly configured."
      (DartDelegate.yamlPath "/home/user/functions") = false := by
  refine ⟨rfl, by decide⟩

/-- Claim C6 as amended: with no static manifest, a nonzero generator exit
code rejects with the build_runner-failed error (naming the exit code,
not the manifest path); a successful generator exit (code 0 or null) with
the manifest still absent rejects with an error that does name the
expected `functions.yaml` path; and `discoverBuild` only ever resolves with
a build read back from the manifest, never a silent empty one. -/
theorem dart_discoverBuild_failure_semantics (w : DartDelegate.World)
    (h1 : w.yamlBuild1 = none) :
    (∀ c : Int, ¬c = 0 → w.procOutcome = .exited (some c) →
      (DartDelegate.discoverBuild w).2 = .error ⟨DartDelegate.buildRunnerFailedMsg (some c)⟩) ∧
    ((w.procOutcome = .exited (some 0) ∨ w.procOutcome = .exited none) →
      w.yamlBuild2 = none →
      (DartDelegate.discoverBuild w).2 = .error ⟨DartDelegate.missingYamlMsg w.sourceDir⟩ ∧
      hasSubstr (DartDelegate.missingYamlMsg w.sourceDir)
        (DartDelegate.yamlPath w.sourceDir) = true) ∧
    (∀ b, (DartDelegate.discoverBuild w).2 = .ok b → w.yamlBuild2 = some b) := by
  refine ⟨fun c hc hp => ?_, fun hp h2 => ?_, fun b hb => ?_⟩
  · simp [DartDelegate.discoverBuild, h1, hp, hc]
  · rcases hp with hp | hp <;>
      refine ⟨by simp [DartDelegate.discoverBuild, h1, hp, h2], ?_⟩ <;>
      exact hasSubstr_sandwich "Could not find functions.yaml at " _ _
  · rcases hp : w.procOutcome with code | m
    · by_cases hcode : code = some 0 ∨ code = none
      · rcases hc : w.yamlBuild2 with _ | b2 <;>
          simp [DartDelegate.discoverBuild, h1, hp, hc, hcode] at hb ⊢
        exact hb
      · simp [DartDelegate.discoverBuild, h1, hp, hcode] at hb
    · simp [DartDelegate.discoverBuild, h1, hp] at hb

/-- Helper: each process slice of the dart watch teardown reaches a
resolved exit wait. -/
theorem dart_teardownOne_settles (p : DartDelegate.Proc) (g : Option Int) (l : Bool) :
    (DartDelegate.teardownOne p g l).2.2 = true := by
  rcases p with ⟨k, ec⟩
  cases k <;> cases ec <;>
    simp [DartDelegate.teardownOne, DartDelegate.killProcess, DartDelegate.forceKill,
      DartDelegate.waitExited]

/-- Helper: after one slice of the dart watch teardown, the process is
settled (killed flag set or exit code recorded). -/
theorem dart_teardownOne_settled_state (p : DartDelegate.Proc) (g : Option Int) (l : Bool) :
    (DartDelegate.teardownOne p g l).1.killed = true ∨
      (DartDelegate.teardownOne p g l).1.exitCode.isSome = true := by
  rcases p with ⟨k, ec⟩
  cases k <;> cases ec <;>
    simp [DartDelegate.teardownOne, DartDelegate.killProcess, DartDelegate.forceKill]

/-- Helper: a slice starting from a settled process sends no signals. -/
theorem dart_teardownOne_noop (p : DartDelegate.Proc) (g : Option Int) (l : Bool)
    (h : p.killed = true ∨ p.exitCode.isSome = true) :
    (DartDelegate.teardownOne p g l).2.1 = [] := by
  rcases p with ⟨k, ec⟩
  rcases h with h | h
  · subst h
    cases ec <;>
      simp [DartDelegate.teardownOne, DartDelegate.killProcess, DartDelegate.forceKill]
  · cases ec with
    | none => simp at h
    | some c =>
      cases k <;>
        simp [DartDelegate.teardownOne, DartDelegate.killProcess, DartDelegate.forceKill]

/-- Counterexample to C4: the teardown returned by the node `serve` does
not always resolve — invoked on an already-dead child (quit request
refused, `ECONNREFUSED`), the `await fetch` rethrows and the teardown
rejects. -/
theorem node_serveTeardown_can_reject :
    NodeDelegate.serveTeardown true false NodeDelegate.FirstEv.exitEv =
      ([NodeDelegate.TdEvent.fetchQuit], .rejected "fetch failed: ECONNREFUSED") ∧
    ¬(NodeDelegate.serveTeardown true false NodeDelegate.FirstEv.exitEv).2 =
        NodeDelegate.Settle.resolved := by decide

/-- Claim C4 as amended: the teardown returned by the dart delegate's
`watch` always resolves, whatever the state of its two child processes
(already exited, never exiting, any exit codes); the node delegate's
`watch` teardown always resolves; but the node `serve` teardown only
resolves when the quit request succeeds on a not-yet-exited child that
then emits `exit` — it rejects when the quit request fails or the child
emits `error` first. -/
theorem teardown_settle_semantics :
    (∀ (a b : DartDelegate.Proc) (ga gb : Option Int) (la lb : Bool),
      (DartDelegate.watchTeardown a b ga gb la lb).2.2 = true) ∧
    NodeDelegate.watchTeardown = ([], NodeDelegate.Settle.resolved) ∧
    (NodeDelegate.serveTeardown false true NodeDelegate.FirstEv.exitEv).2 =
      NodeDelegate.Settle.resolved ∧
    (∀ m, (NodeDelegate.serveTeardown false false (NodeDelegate.FirstEv.errorEv m)).2 =
      NodeDelegate.Settle.rejected "fetch failed: ECONNREFUSED") ∧
    (∀ m, (NodeDelegate.serveTeardown false true (NodeDelegate.FirstEv.errorEv m)).2 =
      NodeDelegate.Settle.rejected m) := by
  refine ⟨fun a b ga gb la lb => ?_, rfl, rfl, fun m => rfl, fun m => rfl⟩
  simp [DartDelegate.watchTeardown, dart_teardownOne_settles]

/-- Counterexample to C7: the teardown returned by the node `serve` is not
idempotent.  After a completed first invocation the child has exited, so a
second invocation re-issues the quit request (an observable side effect,
not a no-op) and that request is refused, making the second invocation
reject (an error). -/
theorem node_serveTeardown_not_idempotent :
    ¬(NodeDelegate.serveTeardown true false NodeDelegate.FirstEv.exitEv).1 = [] ∧
    (NodeDelegate.serveTeardown true false NodeDelegate.FirstEv.exitEv).2 =
      NodeDelegate.Settle.rejected "fetch failed: ECONNREFUSED" := by decide

/-- Claim C7 as amended: the dart `watch` teardown is idempotent — a second
invocation after a completed first one sends no signal to either child and
still resolves — and the node `watch` teardown is trivially idempotent;
the node `serve` teardown is not (see the counterexample: its second
invocation re-issues the quit request and rejects). -/
theorem dart_watchTeardown_idempotent
    (a b : DartDelegate.Proc) (ga gb ga2 gb2 : Option Int) (la lb la2 lb2 : Bool) :
    (DartDelegate.watchTeardown
        (DartDelegate.watchTeardown a b ga gb la lb).1.1
        (DartDelegate.watchTeardown a b ga gb la lb).1.2 ga2 gb2 la2 lb2).2.1 = [] ∧
    (DartDelegate.watchTeardown
        (DartDelegate.watchTeardown a b ga gb la lb).1.1
        (DartDelegate.watchTeardown a b ga gb la lb).1.2 ga2 gb2 la2 lb2).2.2 = true ∧
    NodeDelegate.watchTeardown = ([], NodeDelegate.Settle.resolved) := by
  refine ⟨?_, ?_, rfl⟩
  · have ha := dart_teardownOne_settled_state a ga la
    have hb := dart_teardownOne_settled_state b gb lb
    simp only [DartDelegate.watchTeardown]
    rw [dart_teardownOne_noop _ ga2 la2 ha, dart_teardownOne_noop _ gb2 lb2 hb]
    rfl
  · simp [DartDelegate.watchTeardown, dart_teardownOne_settles]

/-- Counterexample to C5: the environment of the subprocesses spawned by
the dart delegate is a full passthrough of the parent environment (its
`spawn` calls pass no `env` option), so two hosts agreeing on `HOME`,
`PATH` and `NODE_ENV` but differing in an unrelated variable give the
child different environments. -/
theorem dart_spawnEnv_full_passthrough :
    hostWithSecret "HOME" = hostEmpty "HOME" ∧
    hostWithSecret "PATH" = hostEmpty "PATH" ∧
    hostWithSecret "NODE_ENV" = hostEmpty "NODE_ENV" ∧
    ¬DartDelegate.spawnEnv hostWithSecret "SOME_SECRET" =
        DartDelegate.spawnEnv hostEmpty "SOME_SECRET" ∧
    DartDelegate.spawnEnv hostWithSecret "SOME_SECRET" = some "hunter2" := by
  refine ⟨rfl, rfl, rfl, ?_, rfl⟩
  intro h
  simp [DartDelegate.spawnEnv, hostWithSecret, hostEmpty] at h

/-- Claim C5 as amended: the claim holds for the node delegate's serve
subprocess — its child environment is exactly the caller-supplied bindings
overridden by `PORT`, `FUNCTIONS_CONTROL_API`, the allow-listed host
`HOME`/`PATH`/`NODE_ENV`, and `CLOUD_RUNTIME_CONFIG` exactly when the
config object is nonempty, so hosts agreeing on the three allow-listed
variables spawn identical child environments — but not for the dart
delegate, whose spawns inherit the full parent environment (see the
counterexample). -/
theorem node_serveEnv_explicit (host1 host2 envs : String → Option String)
    (port : Nat) (config : List (String × String)) (blob : String)
    (hH : host1 "HOME" = host2 "HOME") (hP : host1 "PATH" = host2 "PATH")
    (hN : host1 "NODE_ENV" = host2 "NODE_ENV") :
    NodeDelegate.serveEnv host1 envs port config blob =
      NodeDelegate.serveEnv host2 envs port config blob ∧
    (∀ k, ¬k = "PORT" → ¬k = "FUNCTIONS_CONTROL_API" → ¬k = "HOME" → ¬k = "PATH" →
      ¬k = "NODE_ENV" → ¬k = "CLOUD_RUNTIME_CONFIG" →
      NodeDelegate.serveEnv host1 envs port config blob k = envs k) ∧
    NodeDelegate.serveEnv host1 envs port config blob "PORT" = some (toString port) ∧
    NodeDelegate.serveEnv host1 envs port config blob "FUNCTIONS_CONTROL_API" = some "true" ∧
    NodeDelegate.serveEnv host1 envs port config blob "HOME" = host1 "HOME" ∧
    NodeDelegate.serveEnv host1 envs port config blob "PATH" = host1 "PATH" ∧
    NodeDelegate.serveEnv host1 envs port config blob "NODE_ENV" = host1 "NODE_ENV" ∧
    (config.isEmpty = true →
      NodeDelegate.serveEnv host1 envs port config blob "CLOUD_RUNTIME_CONFIG" =
        envs "CLOUD_RUNTIME_CONFIG") ∧
    (config.isEmpty = false →
      NodeDelegate.serveEnv host1 envs port config blob "CLOUD_RUNTIME_CONFIG" = some blob) := by
  refine ⟨?_, fun k h1 h2 h3 h4 h5 h6 => ?_, ?_, ?_, ?_, ?_, ?_, fun hc => ?_, fun hc => ?_⟩
  · funext k
    simp only [NodeDelegate.serveEnv, hH, hP, hN]
  · simp [NodeDelegate.serveEnv, h1, h2, h3, h4, h5, h6]
  · simp [NodeDelegate.serveEnv]
  · simp [NodeDelegate.serveEnv]
  · simp [NodeDelegate.serveEnv]
  · simp [NodeDelegate.serveEnv]
  · simp [NodeDelegate.serveEnv]
  · simp [NodeDelegate.serveEnv, hc]
  · simp [NodeDelegate.serveEnv, hc]

/-- Witness for the amended C5: port 8080, a one-key config, empty caller
bindings. -/
theorem node_serveEnv_explicit_witness :
    NodeDelegate.serveEnv hostEmpty (fun _ => none) 8080 [("k", "v")] "cfg" "PORT" =
      some "8080" ∧
    NodeDelegate.serveEnv hostEmpty (fun _ => none) 8080 [("k", "v")] "cfg"
      "FUNCTIONS_CONTROL_API" = some "true" ∧
    NodeDelegate.serveEnv hostEmpty (fun _ => none) 8080 [("k", "v")] "cfg"
      "CLOUD_RUNTIME_CONFIG" = some "cfg" ∧
    NodeDelegate.serveEnv hostEmpty (fun _ => none) 8080 [("k", "v")] "cfg"
      "ARBITRARY_VAR" = none := by
  have h := node_serveEnv_explicit hostEmpty hostEmpty (fun _ => none) 8080
    [("k", "v")] "cfg" rfl rfl rfl
  exact ⟨h.2.2.1, h.2.2.2.1, h.2.2.2.2.2.2.2.2 rfl,
    h.2.1 "ARBITRARY_VAR" (by decide) (by decide) (by decide) (by decide) (by decide)
      (by decide)⟩

/-- Absence of a secret in the map means no entry carries its key. -/
theorem lookupSec_eq_none_iff (m : Ensure.SecretMap) (k : String) :
    Ensure.lookupSec m k = none ↔ ∀ p ∈ m, ¬p.1 = k := by
  simp [Ensure.lookupSec, List.find?_eq_none]

/-- The pruning loop body never adds a key: a secret absent from
`wantSecrets` stays absent. -/
theorem pruneStep_preserves_absent (want : Ensure.SecretMap) (s sa k : String)
    (w2 : Ensure.SecretMap) (hstep : Ensure.pruneStep want s sa = some w2)
    (h : Ensure.lookupSec want k = none) : Ensure.lookupSec w2 k = none := by
  rw [lookupSec_eq_none_iff] at h
  rw [lookupSec_eq_none_iff]
  unfold Ensure.pruneStep at hstep
  split at hstep
  · cases hstep
  · rename_i sas hl
    by_cases hmem2 : sa ∈ sas
    · rw [if_pos hmem2] at hstep
      dsimp only at hstep
      by_cases hemp : (sas.erase sa).isEmpty = true
      · rw [if_pos hemp] at hstep
        cases hstep
        intro p hp
        exact h p (List.mem_of_mem_filter hp)
      · rw [if_neg hemp] at hstep
        cases hstep
        intro p hp
        rcases List.mem_map.mp hp with ⟨q, hq, rfl⟩
        by_cases hqs : q.1 = s
        · simpa [hqs] using h q hq
        · simpa [hqs] using h q hq
    · rw [if_neg hmem2] at hstep
      cases hstep
      exact h

/-- If some `(secret, serviceAccount)` pair of the iteration has no entry
in `wantSecrets`, the pruning loop throws. -/
theorem prunePairs_absent_error (secret sa : String) :
    ∀ (pairs : List (String × String)) (want : Ensure.SecretMap),
      (secret, sa) ∈ pairs → Ensure.lookupSec want secret = none →
      Ensure.prunePairs want pairs = none
  | [], _, hmem, _ => by simp at hmem
  | (s1, a1) :: rest, want, hmem, h => by
    unfold Ensure.prunePairs
    rcases hstep : Ensure.pruneStep want s1 a1 with _ | w2
    · rfl
    · rcases List.mem_cons.mp hmem with heq | hmem2
      · cases heq
        simp [Ensure.pruneStep, h] at hstep
      · exact prunePairs_absent_error secret sa rest w2 hmem2
          (pruneStep_preserves_absent want s1 a1 secret w2 hstep h)

/-- A bound secret/service-account pair occurs in the flattened iteration. -/
theorem mem_flattenPairs (m : Ensure.SecretMap) (k sa : String) (v : Ensure.SaSet)
    (hl : Ensure.lookupSec m k = some v) (hsa : sa ∈ v) :
    (k, sa) ∈ Ensure.flattenPairs m := by
  obtain ⟨p, hfind, hpv⟩ : ∃ p, m.find? (fun p => p.1 = k) = some p ∧ p.2 = v := by
    rcases hf : m.find? (fun p => decide (p.1 = k)) with _ | p
    · simp [Ensure.lookupSec, hf] at hl
    · refine ⟨p, hf, ?_⟩
      simpa [Ensure.lookupSec, hf] using hl
  have hmem := List.mem_of_find?_eq_some hfind
  have hkey : p.1 = k := by simpa using List.find?_some hfind
  simp only [Ensure.flattenPairs, List.mem_flatMap]
  exact ⟨p, hmem, by rw [hkey, hpv]; exact List.mem_map_of_mem (fun x => (k, x)) hsa⟩

/-- Claim C9: `ensureSecretAccess` is total only when every secret bound in
`haveBackend` also appears in `wantBackend`'s secret map: whenever
`haveBackend` binds a secret to some service account and `wantBackend`
binds no service account to that secret, the lookup
`wantSecrets?.[secret].has(serviceAccount)` dereferences `undefined` and
the call throws a `TypeError` (modelled as `none`) before any IAM update
is issued. -/
theorem ensureSecretAccess_throws_on_missing_want (dsa : String → String)
    (wantB haveB : Ensure.Backend) (secret sa : String) (sas : Ensure.SaSet)
    (hhave : Ensure.lookupSec (Ensure.secretsToServiceAccounts dsa haveB) secret = some sas)
    (hsa : sa ∈ sas)
    (hwant : Ensure.lookupSec (Ensure.secretsToServiceAccounts dsa wantB) secret = none) :
    Ensure.ensureSecretAccess dsa wantB haveB = none := by
  have hp := prunePairs_absent_error secret sa
    (Ensure.flattenPairs (Ensure.secretsToServiceAccounts dsa haveB))
    (Ensure.secretsToServiceAccounts dsa wantB)
    (mem_flattenPairs _ secret sa sas hhave hsa) hwant
  simp [Ensure.ensureSecretAccess, hp]

/-- Witness for C9: a deployed backend binding `API_KEY` to a service
account while the desired backend is empty. -/
theorem ensureSecretAccess_throws_witness :
    Ensure.lookupSec (Ensure.secretsToServiceAccounts
        (fun p => p ++ "@appspot.gserviceaccount.com")
        [⟨"proj", some "runtime-sa@proj.iam", some [⟨"API_KEY"⟩]⟩]) "API_KEY" =
      some ["runtime-sa@proj.iam"] ∧
    "runtime-sa@proj.iam" ∈ (["runtime-sa@proj.iam"] : List String) ∧
    Ensure.lookupSec (Ensure.secretsToServiceAccounts
        (fun p => p ++ "@appspot.gserviceaccount.com") []) "API_KEY" = none ∧
    Ensure.ensureSecretAccess (fun p => p ++ "@appspot.gserviceaccount.com")
      [] [⟨"proj", some "runtime-sa@proj.iam", some [⟨"API_KEY"⟩]⟩] = none := by
  refine ⟨rfl, by decide, rfl, ?_⟩
  exact ensureSecretAccess_throws_on_missing_want _ _ _ "API_KEY" "runtime-sa@proj.iam"
    ["runtime-sa@proj.iam"] rfl (by decide) rfl

/-- Witness for the amended C6: a failing generator, a successful generator
with a still-missing manifest, and a successful one that produced it. -/
theorem dart_discoverBuild_failure_semantics_witness :
    (DartDelegate.discoverBuild ⟨"/srv/fn", none, .exited (some 2), none⟩).2 =
      .error ⟨DartDelegate.buildRunnerFailedMsg (some 2)⟩ ∧
    ((DartDelegate.discoverBuild ⟨"/srv/fn", none, .exited (some 0), none⟩).2 =
        .error ⟨DartDelegate.missingYamlMsg "/srv/fn"⟩ ∧
      hasSubstr (DartDelegate.missingYamlMsg "/srv/fn")
        (DartDelegate.yamlPath "/srv/fn") = true) ∧
    (⟨"/srv/fn", none, .exited none, some ⟨["h"]⟩⟩ : DartDelegate.World).yamlBuild2 =
      some ⟨["h"]⟩ :=
  ⟨(dart_discoverBuild_failure_semantics ⟨"/srv/fn", none, .exited (some 2), none⟩ rfl).1
      2 (by decide) rfl,
   (dart_discoverBuild_failure_semantics ⟨"/srv/fn", none, .exited (some 0), none⟩ rfl).2.1
      (Or.inl rfl) rfl,
   (dart_discoverBuild_failure_semantics ⟨"/srv/fn", none, .exited none, some ⟨["h"]⟩⟩ rfl).2.2
      ⟨["h"]⟩ rfl⟩

end FirebaseTools
